import Mathlib

/-!
# AntiTamperMaster: configuration encoder and telemetry pipeline

A shallow embedding of `src/AntiTamperMaster.cpp` (classes `AntiTamperConfig`
and `AntiTamperMaster`) together with the properties of its wire formats.

The Arduino collaborators (`Wire`, `Serial`, `LoRa`, `String`, the core
macros) are not part of the repository; each is modelled by the observable
effect the source relies on, as an explicit state `World`:

* `rx`     : the unread bytes of the `Wire` receive buffer,
* `bus`    : the trace of calls made on the `Wire` object,
* `serial` : the text printed on `Serial`,
* `radio`  : the trace of calls made on the `LoRa` object.

The width of the C++ type `int` depends on the board (16 bits on AVR, 32 bits
on ARM and ESP32 boards); it is the parameter `w` of the telemetry functions.
Values of type `int` are carried as `Int` and every `int` operation wraps to
`w` bits in two's complement.
-/

namespace AntiTamper

/-! ## Data model -/

/-- A byte (`uint8_t`) held in a bus buffer. -/
abbrev Byte := Fin 256

/-- One call on the `Wire` object. -/
inductive BusEvent where
  | beginTransmission (addr : Nat)
  | write (byte : Nat)
  | endTransmission
  | requestFrom (addr : Nat) (quantity : Nat)
  deriving DecidableEq, Repr

/-- One call on the `LoRa` object. -/
inductive RadioEvent where
  | beginPacket
  | print (text : String)
  | endPacket
  deriving DecidableEq, Repr

/-- The state of the three transports the two classes act on. -/
structure World where
  rx : List Byte
  bus : List BusEvent
  serial : String
  radio : List RadioEvent
  deriving DecidableEq

/-- The sensor node as seen from the master: the bytes that are in the receive
buffer after a request of `quantity` bytes from address `addr`. No bound on the
length is assumed. -/
abbrev Peer := Nat → Nat → List Byte

/-- A `float` argument, given by its object representation: the four bytes
`p[0]`, `p[1]`, `p[2]`, `p[3]` that `(uint8_t*)&value` points at, in address
order. -/
structure CFloat where
  mem : Fin 4 → Byte

/-! ## Machine integers -/

/-- The value of an `int` of `w` bits whose mathematical result is `n`:
reduction modulo `2 ^ w` into the two's complement range. -/
def wrapInt (w : Nat) (n : Int) : Int :=
  if n % 2 ^ w < 2 ^ (w - 1) then n % 2 ^ w else n % 2 ^ w - 2 ^ w

/-- The `w`-bit two's complement pattern of an `int` value. -/
def bits (w : Nat) (n : Int) : Nat := (n % 2 ^ w).toNat

/-- `a << k` on `int`. -/
def int_shl (w : Nat) (a : Int) (k : Nat) : Int := wrapInt w (a * 2 ^ k)

/-- `a | b` on `int`. -/
def int_or (w : Nat) (a b : Int) : Int := wrapInt w ((bits w a ||| bits w b : Nat) : Int)

/-- Conversion `int` to `uint8_t`. -/
def toUInt8 (n : Int) : Nat := (n % 256).toNat

/-- Conversion `int` to `bool`. -/
def toBool (n : Int) : Bool := decide (n ≠ 0)

/-- Modelled from the spec: the Arduino core macro `highByte` is not in the
repository; the spec has a uint16 emitted high byte first, and the core defines
`highByte(w)` as `(uint8_t)((w) >> 8)`. -/
def highByte (v : Nat) : Nat := (v >>> 8) % 256

/-- Modelled from the spec: the Arduino core macro `lowByte` is not in the
repository; the core defines `lowByte(w)` as `(uint8_t)((w) & 0xff)`. -/
def lowByte (v : Nat) : Nat := (v &&& 0xff) % 256

/-! ## Arduino `String` constructors -/

/-- Modelled from the spec: `String(unsigned char)` of the Arduino core, the
decimal text of the value. -/
def StringOfUChar (v : Nat) : String := Nat.repr v

/-- Modelled from the spec: `String(int)` of the Arduino core, the decimal text
of the value with a leading minus sign when negative. -/
def StringOfInt (i : Int) : String :=
  if i < 0 then "-" ++ Nat.repr i.natAbs else Nat.repr i.toNat

/-- The constructor call `String(b)` for `b` of type `bool`: the class has no
`bool` constructor, the argument is promoted to `int`. -/
def StringOfBool (b : Bool) : String := StringOfInt (if b then 1 else 0)

/-! ## Transport primitives -/

/-- Modelled from the spec: `Wire.beginTransmission(addr)` opens a transaction. -/
def Wire_beginTransmission (addr : Nat) (st : World) : World :=
  { st with bus := st.bus ++ [BusEvent.beginTransmission addr] }

/-- Modelled from the spec: `Wire.write(n)` appends one byte, the argument
converted to `uint8_t`. -/
def Wire_write (n : Nat) (st : World) : World :=
  { st with bus := st.bus ++ [BusEvent.write (n % 256)] }

/-- Modelled from the spec: `Wire.endTransmission()` closes the transaction. -/
def Wire_endTransmission (st : World) : World :=
  { st with bus := st.bus ++ [BusEvent.endTransmission] }

/-- Modelled from the spec: `Wire.requestFrom(addr, quantity)`, "request N
bytes": the receive buffer then holds what the peer delivered. -/
def Wire_requestFrom (peer : Peer) (addr quantity : Nat) (st : World) : World :=
  { st with rx := peer addr quantity, bus := st.bus ++ [BusEvent.requestFrom addr quantity] }

/-- Modelled from the spec: `Wire.available()`, the number of unread bytes. -/
def Wire_available (st : World) : Nat := st.rx.length

/-- Modelled from the spec: `Wire.read()`, the next unread byte as an `int`,
or `-1` when the buffer is empty. -/
def Wire_read (st : World) : Int × World :=
  match st.rx with
  | [] => (-1, st)
  | b :: rest => ((b.val : Int), { st with rx := rest })

/-- Modelled from the spec: `Serial.print(text)`. -/
def Serial_print (text : String) (st : World) : World :=
  { st with serial := st.serial ++ text }

/-- Modelled from the spec: `Serial.println(text)`, the text followed by the
line terminator CR LF. -/
def Serial_println (text : String) (st : World) : World :=
  { st with serial := st.serial ++ text ++ "\r\n" }

/-- Modelled from the spec: `lora.beginPacket()`. -/
def LoRa_beginPacket (st : World) : World :=
  { st with radio := st.radio ++ [RadioEvent.beginPacket] }

/-- Modelled from the spec: `lora.print(message)`. -/
def LoRa_print (message : String) (st : World) : World :=
  { st with radio := st.radio ++ [RadioEvent.print message] }

/-- Modelled from the spec: `lora.endPacket()`. -/
def LoRa_endPacket (st : World) : World :=
  { st with radio := st.radio ++ [RadioEvent.endPacket] }

/-! ## AntiTamperConfig -/

/-- The private helper `AntiTamperConfig::writeFloat`: the loop
`for (i = 0; i < 4; i++) Wire.write(p[i])` over the object representation. -/
def writeFloat (value : CFloat) (st : World) : World :=
  (List.finRange 4).foldl (fun s i => Wire_write (value.mem i).val s) st

/-- The function `AntiTamperConfig::sendFullConfig`. -/
def sendFullConfig (slaveAddress : Nat)
    (lightThreshold calibrationInterval : Nat) (vibThreshold vibImpactThreshold : CFloat)
    (vibStabilityTime vibDebounceTime : Nat) (st : World) : World :=
  let st := Wire_beginTransmission slaveAddress st
  let st := Wire_write (highByte lightThreshold) st
  let st := Wire_write (lowByte lightThreshold) st
  let st := Wire_write ((calibrationInterval >>> 24) &&& 0xFF) st
  let st := Wire_write ((calibrationInterval >>> 16) &&& 0xFF) st
  let st := Wire_write ((calibrationInterval >>> 8) &&& 0xFF) st
  let st := Wire_write (calibrationInterval &&& 0xFF) st
  let st := (List.finRange 4).foldl (fun s i => Wire_write (vibThreshold.mem i).val s) st
  let st := (List.finRange 4).foldl (fun s i => Wire_write (vibImpactThreshold.mem i).val s) st
  let st := Wire_write ((vibStabilityTime >>> 24) &&& 0xFF) st
  let st := Wire_write ((vibStabilityTime >>> 16) &&& 0xFF) st
  let st := Wire_write ((vibStabilityTime >>> 8) &&& 0xFF) st
  let st := Wire_write (vibStabilityTime &&& 0xFF) st
  let st := Wire_write ((vibDebounceTime >>> 24) &&& 0xFF) st
  let st := Wire_write ((vibDebounceTime >>> 16) &&& 0xFF) st
  let st := Wire_write ((vibDebounceTime >>> 8) &&& 0xFF) st
  let st := Wire_write (vibDebounceTime &&& 0xFF) st
  Wire_endTransmission st

/-- The function `AntiTamperConfig::setLightThreshold`. -/
def setLightThreshold (slaveAddress : Nat) (threshold : Nat) (st : World) : World :=
  let st := Wire_beginTransmission slaveAddress st
  let st := Wire_write 0x01 st
  let st := Wire_write (highByte threshold) st
  let st := Wire_write (lowByte threshold) st
  Wire_endTransmission st

/-- The function `AntiTamperConfig::setCalibrationInterval`. -/
def setCalibrationInterval (slaveAddress : Nat) (interval : Nat) (st : World) : World :=
  let st := Wire_beginTransmission slaveAddress st
  let st := Wire_write 0x02 st
  let st := Wire_write ((interval >>> 24) &&& 0xFF) st
  let st := Wire_write ((interval >>> 16) &&& 0xFF) st
  let st := Wire_write ((interval >>> 8) &&& 0xFF) st
  let st := Wire_write (interval &&& 0xFF) st
  Wire_endTransmission st

/-- The function `AntiTamperConfig::setVibrationThreshold`. -/
def setVibrationThreshold (slaveAddress : Nat) (threshold : CFloat) (st : World) : World :=
  let st := Wire_beginTransmission slaveAddress st
  let st := Wire_write 0x03 st
  let st := writeFloat threshold st
  Wire_endTransmission st

/-- The function `AntiTamperConfig::setVibrationImpactThreshold`. -/
def setVibrationImpactThreshold (slaveAddress : Nat) (threshold : CFloat) (st : World) : World :=
  let st := Wire_beginTransmission slaveAddress st
  let st := Wire_write 0x04 st
  let st := writeFloat threshold st
  Wire_endTransmission st

/-- The function `AntiTamperConfig::setVibrationStabilityTime`. -/
def setVibrationStabilityTime (slaveAddress : Nat) (time : Nat) (st : World) : World :=
  let st := Wire_beginTransmission slaveAddress st
  let st := Wire_write 0x05 st
  let st := Wire_write ((time >>> 24) &&& 0xFF) st
  let st := Wire_write ((time >>> 16) &&& 0xFF) st
  let st := Wire_write ((time >>> 8) &&& 0xFF) st
  let st := Wire_write (time &&& 0xFF) st
  Wire_endTransmission st

/-- The function `AntiTamperConfig::setVibrationDebounceTime`. -/
def setVibrationDebounceTime (slaveAddress : Nat) (time : Nat) (st : World) : World :=
  let st := Wire_beginTransmission slaveAddress st
  let st := Wire_write 0x06 st
  let st := Wire_write ((time >>> 24) &&& 0xFF) st
  let st := Wire_write ((time >>> 16) &&& 0xFF) st
  let st := Wire_write ((time >>> 8) &&& 0xFF) st
  let st := Wire_write (time &&& 0xFF) st
  Wire_endTransmission st

/-! ## AntiTamperMaster -/

/-- The text built by `AntiTamperMaster::sendViaLoRa`: nine `String`
constructor calls joined by `+ ","`. The parameters `lightTampered` and
`hallTampered` are `uint8_t`, the two light values are `int`, the others
`bool`. -/
def relayMessage (lightTampered : Nat) (neutralLight currentLight : Int) (hallTampered : Nat)
    (steadyOrientation noSuddenImpact stableLongTerm vibTamper moduleTampered : Bool) : String :=
  StringOfUChar lightTampered ++ "," ++
  StringOfInt neutralLight ++ "," ++
  StringOfInt currentLight ++ "," ++
  StringOfUChar hallTampered ++ "," ++
  StringOfBool steadyOrientation ++ "," ++
  StringOfBool noSuddenImpact ++ "," ++
  StringOfBool stableLongTerm ++ "," ++
  StringOfBool vibTamper ++ "," ++
  StringOfBool moduleTampered

/-- The function `AntiTamperMaster::sendViaLoRa`. -/
def sendViaLoRa (lightTampered : Nat) (neutralLight currentLight : Int) (hallTampered : Nat)
    (steadyOrientation noSuddenImpact stableLongTerm vibTamper moduleTampered : Bool)
    (st : World) : World :=
  let message := relayMessage lightTampered neutralLight currentLight hallTampered
    steadyOrientation noSuddenImpact stableLongTerm vibTamper moduleTampered
  let st := LoRa_beginPacket st
  let st := LoRa_print message st
  LoRa_endPacket st

/-- The text of `flag ? "YES" : "NO"`. -/
def yesNo (flag : Bool) : String := if flag then "YES" else "NO"

/-- The function `AntiTamperMaster::readSensorData` on a board whose `int` has
`w` bits. The two operands of `Wire.read() << 8 | Wire.read()` are evaluated
left to right ("Parse data in order"). -/
def readSensorData (w : Nat) (peer : Peer) (slaveAddress : Nat) (st : World) : Bool × World :=
  let st := Wire_requestFrom peer slaveAddress 11 st
  if Wire_available st ≠ 11 then
    (false, Serial_println "Error: Incomplete data from slave" st)
  else
    let r0 := Wire_read st
    let lightTampered : Nat := toUInt8 r0.1
    let r1 := Wire_read r0.2
    let r2 := Wire_read r1.2
    let neutralLight : Int := int_or w (int_shl w r1.1 8) r2.1
    let r3 := Wire_read r2.2
    let r4 := Wire_read r3.2
    let currentLight : Int := int_or w (int_shl w r3.1 8) r4.1
    let r5 := Wire_read r4.2
    let hallTampered : Nat := toUInt8 r5.1
    let r6 := Wire_read r5.2
    let steadyOrientation : Bool := toBool r6.1
    let r7 := Wire_read r6.2
    let nosuddenImpact : Bool := toBool r7.1
    let r8 := Wire_read r7.2
    let stableLongTerm : Bool := toBool r8.1
    let r9 := Wire_read r8.2
    let vibTamper : Bool := toBool r9.1
    let r10 := Wire_read r9.2
    let moduleTampered : Bool := toBool r10.1
    let st := r10.2
    let st := Serial_println "=== Light Sensor ===" st
    let st := Serial_print "Tampered: " st
    let st := Serial_println (yesNo (decide (lightTampered ≠ 0))) st
    let st := Serial_print "Neutral Light: " st
    let st := Serial_println (StringOfInt neutralLight) st
    let st := Serial_print "Current Light: " st
    let st := Serial_println (StringOfInt currentLight) st
    let st := Serial_println "\n=== Hall Effect Sensor ===" st
    let st := Serial_print "Tampered: " st
    let st := Serial_println (yesNo (decide (hallTampered ≠ 0))) st
    let st := Serial_println "\n=== Vibration Sensor ===" st
    let st := Serial_print "Orientation Steady: " st
    let st := Serial_println (yesNo steadyOrientation) st
    let st := Serial_print "No Sudden Impact: " st
    let st := Serial_println (yesNo (!nosuddenImpact)) st
    let st := Serial_print "Stable Long-Term: " st
    let st := Serial_println (yesNo stableLongTerm) st
    let st := Serial_print "Tampering Detected: " st
    let st := Serial_println (yesNo vibTamper) st
    let st := Serial_println "\n=== MODULE STATUS ===" st
    let st := Serial_print "Tampered (2/3 sensors): " st
    let st := Serial_println (yesNo moduleTampered) st
    let st := Serial_println "---------------------------\n" st
    let st := sendViaLoRa lightTampered neutralLight currentLight hallTampered
      steadyOrientation nosuddenImpact stableLongTerm vibTamper moduleTampered st
    (true, st)

/-! ## Observations -/

/-- The payload of a bus trace: the bytes of its `write` events, in order. -/
def payload : List BusEvent → List Nat
  | [] => []
  | BusEvent.write b :: rest => b :: payload rest
  | _ :: rest => payload rest

/-- The texts handed to `lora.print`, in order. -/
def relayed : List RadioEvent → List String
  | [] => []
  | RadioEvent.print t :: rest => t :: relayed rest
  | _ :: rest => relayed rest

/-- An idle world: empty buffers and traces. -/
def idle : World := { rx := [], bus := [], serial := "", radio := [] }

/-- A peer that always delivers the given bytes. -/
def deliver (frame : List Byte) : Peer := fun _ _ => frame

/-- The example frame of the specification. -/
def specFrame : List Byte := [0x01, 0x00, 0x64, 0x00, 0x32, 0x01, 0x01, 0x00, 0x01, 0x00, 0x01]

/-- The comma-separated fields of a text, as lists of characters. -/
def splitComma : List Char → List (List Char)
  | [] => [[]]
  | c :: cs =>
    if c = ',' then [] :: splitComma cs
    else match splitComma cs with
      | [] => [[c]]
      | f :: fs => (c :: f) :: fs

/-- The comma-separated fields of a text. -/
def fieldsOf (text : String) : List String := (splitComma text.data).map String.mk

/-- The spec's reading of two frame bytes: big-endian signed 16-bit. -/
def int16be (hi lo : Nat) : Int :=
  if 256 * hi + lo < 32768 then ((256 * hi + lo : Nat) : Int) else ((256 * hi + lo : Nat) : Int) - 65536

/-- The spec's rendering of a boolean frame byte. -/
def oneZero (b : Byte) : String := if b.val ≠ 0 then "1" else "0"

/-- The value of the expression `Wire.read() << 8 | Wire.read()` of
`readSensorData` when the first call returns `hi` and the second `lo`. -/
def decodeLight (w : Nat) (hi lo : Byte) : Int :=
  int_or w (int_shl w (hi.val : Int) 8) (lo.val : Int)

/-- The fields of every text handed to the radio during one poll. -/
def relayedFields (w : Nat) (peer : Peer) (addr : Nat) (st : World) : List (List String) :=
  (relayed ((readSensorData w peer addr st).2.radio.drop st.radio.length)).map fieldsOf

/-- The payload bytes written on the bus between two states. -/
def written (before after : World) : List Nat :=
  payload (after.bus.drop before.bus.length)

/-- Big-endian decoding of a byte sequence: the first byte is the most
significant. -/
def fromBigEndian (bytes : List Nat) : Nat :=
  bytes.foldl (fun acc b => 256 * acc + b) 0

/-- The object representation of `1.0f` on a little-endian IEEE-754 board. -/
def floatOne : CFloat := ⟨![0x00, 0x00, 0x80, 0x3F]⟩

/-- The text of a sequence of console lines, each closed by CR LF. -/
def consoleLines (lines : List String) : String :=
  lines.foldl (fun acc l => acc ++ l ++ "\r\n") ""

/-- The value of a decimal digit character. -/
def digitValue (c : Char) : Nat := c.toNat - 48

/-- Parsing of an unsigned decimal numeral: a nonempty run of digits. -/
def parseNat (cs : List Char) : Option Nat :=
  if cs ≠ [] ∧ cs.all Char.isDigit = true then
    some (cs.foldl (fun acc c => 10 * acc + digitValue c) 0)
  else none

/-- Parsing of a decimal integer: an optional minus sign, then a numeral. -/
def parseDecimal (s : String) : Option Int :=
  match s.data with
  | [] => none
  | c :: cs =>
    if c = '-' then (parseNat cs).map (fun (n : Nat) => -(n : Int))
    else (parseNat (c :: cs)).map (fun (n : Nat) => (n : Int))

/-! ## Auxiliary lemmas -/

theorem wrapInt_of_nonneg_of_lt (w : Nat) (n : Int) (h0 : 0 ≤ n) (h1 : n < 2 ^ (w - 1)) :
    wrapInt w n = n := by
  have hle : (2 : Int) ^ (w - 1) ≤ 2 ^ w := pow_le_pow_right₀ (by norm_num) (Nat.sub_le w 1)
  have hmod : n % 2 ^ w = n := Int.emod_eq_of_lt h0 (lt_of_lt_of_le h1 hle)
  simp [wrapInt, hmod, h1]

theorem bits_wrapInt (w : Nat) (n : Int) : bits w (wrapInt w n) = bits w n := by
  unfold bits wrapInt
  split
  · rw [Int.emod_emod_of_dvd _ (dvd_refl _)]
  · rw [Int.sub_emod, Int.emod_self, sub_zero, Int.emod_emod_of_dvd _ (dvd_refl _),
      Int.emod_emod_of_dvd _ (dvd_refl _)]

theorem bits_of_lt (w : Nat) (n : Nat) (h : n < 2 ^ w) : bits w (n : Int) = n := by
  unfold bits
  have : ((n : Int)) % 2 ^ w = n := by
    apply Int.emod_eq_of_lt (by positivity)
    exact_mod_cast h
  rw [this]; simp

theorem pow_ge_of_ge16 (w : Nat) (hw : 16 ≤ w) : 65536 ≤ 2 ^ w := by
  calc 65536 = 2 ^ 16 := by norm_num
    _ ≤ 2 ^ w := Nat.pow_le_pow_right (by norm_num) hw

theorem decode_eq_wrap (w a b : Nat) (hw : 16 ≤ w) (ha : a < 256) (hb : b < 256) :
    int_or w (int_shl w (a : Int) 8) (b : Int) = wrapInt w ((256 * a + b : Nat) : Int) := by
  have hp := pow_ge_of_ge16 w hw
  unfold int_or int_shl
  rw [bits_wrapInt]
  have h1 : bits w ((a : Int) * 2 ^ 8) = 2 ^ 8 * a := by
    have : ((a : Int) * 2 ^ 8) = ((2 ^ 8 * a : Nat) : Int) := by push_cast; ring
    rw [this]; apply bits_of_lt; omega
  have h2 : bits w (b : Int) = b := bits_of_lt w b (by omega)
  rw [h1, h2, ← Nat.mul_add_lt_is_or (by norm_num; exact hb)]

theorem wrapInt16 (n : Nat) (h : n < 65536) :
    wrapInt 16 (n : Int) = if n < 32768 then (n : Int) else (n : Int) - 65536 := by
  unfold wrapInt
  norm_num
  have : (n : Int) % 65536 = n := by omega
  rw [this]
  split <;> split <;> omega

theorem frame_of_length_eleven {α : Type} (l : List α) (h : l.length = 11) :
    ∃ b0 b1 b2 b3 b4 b5 b6 b7 b8 b9 b10, l = [b0, b1, b2, b3, b4, b5, b6, b7, b8, b9, b10] := by
  match l, h with
  | [b0, b1, b2, b3, b4, b5, b6, b7, b8, b9, b10], _ => exact ⟨_, _, _, _, _, _, _, _, _, _, _, rfl⟩

theorem toUInt8_byte (b : Byte) : toUInt8 (b.val : Int) = b.val := by
  unfold toUInt8
  have := b.isLt
  omega

theorem toBool_byte (b : Byte) : toBool (b.val : Int) = decide (b.val ≠ 0) := by
  unfold toBool
  simp

theorem readSensorData_of_frame (w : Nat) (peer : Peer) (addr : Nat) (st : World)
    (b0 b1 b2 b3 b4 b5 b6 b7 b8 b9 b10 : Byte)
    (h : peer addr 11 = [b0, b1, b2, b3, b4, b5, b6, b7, b8, b9, b10]) :
    (readSensorData w peer addr st).1 = true ∧
    (readSensorData w peer addr st).2.rx = [] ∧
    (readSensorData w peer addr st).2.radio = st.radio ++
      [RadioEvent.beginPacket,
       RadioEvent.print (relayMessage b0.val
         (int_or w (int_shl w (b1.val : Int) 8) (b2.val : Int))
         (int_or w (int_shl w (b3.val : Int) 8) (b4.val : Int))
         b5.val (decide (b6.val ≠ 0)) (decide (b7.val ≠ 0)) (decide (b8.val ≠ 0))
         (decide (b9.val ≠ 0)) (decide (b10.val ≠ 0))),
       RadioEvent.endPacket] := by
  simp [readSensorData, Wire_requestFrom, Wire_available, h, Wire_read, sendViaLoRa,
    LoRa_beginPacket, LoRa_print, LoRa_endPacket, Serial_print, Serial_println,
    toUInt8_byte, toBool_byte]

theorem splitComma_field (f : List Char) (hf : ∀ c ∈ f, c ≠ ',') : splitComma f = [f] := by
  induction f with
  | nil => rfl
  | cons c cs ih =>
    have hc : c ≠ ',' := hf c (List.mem_cons_self _ _)
    have := ih (fun x hx => hf x (List.mem_cons_of_mem _ hx))
    simp [splitComma, hc, this]

theorem splitComma_cons_field (f rest : List Char) (hf : ∀ c ∈ f, c ≠ ',') :
    splitComma (f ++ ',' :: rest) = f :: splitComma rest := by
  induction f with
  | nil => simp [splitComma]
  | cons c cs ih =>
    have hc : c ≠ ',' := hf c (List.mem_cons_self _ _)
    have := ih (fun x hx => hf x (List.mem_cons_of_mem _ hx))
    simp [splitComma, hc, this]

theorem digitChar_isDigit (d : Nat) (h : d < 10) : (Nat.digitChar d).isDigit = true := by
  interval_cases d <;> rfl

theorem toDigitsCore_isDigit (fuel : Nat) : ∀ (n : Nat) (ds : List Char),
    (∀ c ∈ ds, c.isDigit = true) → ∀ c ∈ Nat.toDigitsCore 10 fuel n ds, c.isDigit = true := by
  induction fuel with
  | zero => intro n ds h; simpa [Nat.toDigitsCore] using h
  | succ k ih =>
    intro n ds h
    have hd : (Nat.digitChar (n % 10)).isDigit = true := digitChar_isDigit _ (Nat.mod_lt _ (by norm_num))
    have hds : ∀ c ∈ Nat.digitChar (n % 10) :: ds, c.isDigit = true := by
      intro c hc
      rcases List.mem_cons.mp hc with rfl | hc
      · exact hd
      · exact h c hc
    simp only [Nat.toDigitsCore]
    split
    · exact hds
    · exact ih _ _ hds

theorem repr_isDigit (n : Nat) : ∀ c ∈ (Nat.repr n).data, c.isDigit = true := by
  unfold Nat.repr Nat.toDigits
  simpa [List.asString] using toDigitsCore_isDigit (n + 1) n [] (by simp)

theorem repr_no_comma (n : Nat) : ∀ c ∈ (Nat.repr n).data, c ≠ ',' := by
  intro c hc h
  have := repr_isDigit n c hc
  rw [h] at this
  exact absurd this (by decide)

theorem StringOfUChar_no_comma (n : Nat) : ∀ c ∈ (StringOfUChar n).data, c ≠ ',' :=
  repr_no_comma n

theorem StringOfInt_no_comma (i : Int) : ∀ c ∈ (StringOfInt i).data, c ≠ ',' := by
  unfold StringOfInt
  split
  · intro c hc
    simp only [String.data_append, List.mem_append] at hc
    rcases hc with hc | hc
    · have : c = '-' := by simpa using hc
      rw [this]; decide
    · exact repr_no_comma _ c hc
  · exact repr_no_comma _

theorem StringOfBool_no_comma (b : Bool) : ∀ c ∈ (StringOfBool b).data, c ≠ ',' :=
  StringOfInt_no_comma _

theorem fieldsOf_relayMessage (lt : Nat) (nl cl : Int) (ht : Nat) (so ns sl vt mt : Bool) :
    fieldsOf (relayMessage lt nl cl ht so ns sl vt mt) =
      [StringOfUChar lt, StringOfInt nl, StringOfInt cl, StringOfUChar ht, StringOfBool so,
       StringOfBool ns, StringOfBool sl, StringOfBool vt, StringOfBool mt] := by
  unfold fieldsOf relayMessage
  simp only [String.data_append, List.append_assoc]
  have hc : (",": String).data = [','] := rfl
  simp only [hc, List.singleton_append]
  rw [splitComma_cons_field _ _ (StringOfUChar_no_comma lt),
    splitComma_cons_field _ _ (StringOfInt_no_comma nl),
    splitComma_cons_field _ _ (StringOfInt_no_comma cl),
    splitComma_cons_field _ _ (StringOfUChar_no_comma ht),
    splitComma_cons_field _ _ (StringOfBool_no_comma so),
    splitComma_cons_field _ _ (StringOfBool_no_comma ns),
    splitComma_cons_field _ _ (StringOfBool_no_comma sl),
    splitComma_cons_field _ _ (StringOfBool_no_comma vt),
    splitComma_field _ (StringOfBool_no_comma mt)]
  simp


theorem StringOfInt_natCast (n : Nat) : StringOfInt (n : Int) = Nat.repr n := by
  unfold StringOfInt
  have : ¬ ((n : Int) < 0) := by omega
  simp [this]

theorem StringOfBool_flag (b : Byte) : StringOfBool (decide (b.val ≠ 0)) = oneZero b := by
  unfold oneZero
  by_cases h : b.val = 0
  · simp [h]; rfl
  · simp [h]; rfl

theorem StringOfBool_le_one (b : Byte) (h : b.val ≤ 1) :
    StringOfBool (decide (b.val ≠ 0)) = Nat.repr b.val := by
  have : b.val = 0 ∨ b.val = 1 := by omega
  rcases this with h0 | h1
  · rw [h0]; rfl
  · rw [h1]; rfl

theorem decode_small (w a b : Nat) (hw : 16 ≤ w) (ha : a < 256) (hb : b < 256)
    (hs : 256 * a + b < 32768) :
    int_or w (int_shl w (a : Int) 8) (b : Int) = ((256 * a + b : Nat) : Int) := by
  rw [decode_eq_wrap w a b hw ha hb]
  apply wrapInt_of_nonneg_of_lt
  · positivity
  · have h15 : 15 ≤ w - 1 := by omega
    have : (2 : Nat) ^ 15 ≤ 2 ^ (w - 1) := Nat.pow_le_pow_right (by norm_num) h15
    have h2 : (256 * a + b : Nat) < 2 ^ (w - 1) := by omega
    exact_mod_cast h2

theorem decode_int16 (a b : Nat) (ha : a < 256) (hb : b < 256) :
    int_or 16 (int_shl 16 (a : Int) 8) (b : Int) = int16be a b := by
  rw [decode_eq_wrap 16 a b (le_refl _) ha hb, wrapInt16 _ (by omega)]
  rfl

theorem decode_wide (w a b : Nat) (hw : 16 < w) (ha : a < 256) (hb : b < 256) :
    int_or w (int_shl w (a : Int) 8) (b : Int) = ((256 * a + b : Nat) : Int) := by
  rw [decode_eq_wrap w a b (le_of_lt hw) ha hb]
  apply wrapInt_of_nonneg_of_lt
  · positivity
  · have h16 : 16 ≤ w - 1 := by omega
    have : (2 : Nat) ^ 16 ≤ 2 ^ (w - 1) := Nat.pow_le_pow_right (by norm_num) h16
    have h2 : (256 * a + b : Nat) < 2 ^ (w - 1) := by omega
    exact_mod_cast h2

theorem relayedFields_of_frame (w : Nat) (peer : Peer) (addr : Nat) (st : World)
    (b0 b1 b2 b3 b4 b5 b6 b7 b8 b9 b10 : Byte)
    (h : peer addr 11 = [b0, b1, b2, b3, b4, b5, b6, b7, b8, b9, b10]) :
    relayedFields w peer addr st =
      [[StringOfUChar b0.val, StringOfInt (decodeLight w b1 b2), StringOfInt (decodeLight w b3 b4),
        StringOfUChar b5.val, oneZero b6, oneZero b7, oneZero b8, oneZero b9, oneZero b10]] := by
  unfold relayedFields
  rw [(readSensorData_of_frame w peer addr st b0 b1 b2 b3 b4 b5 b6 b7 b8 b9 b10 h).2.2]
  rw [List.drop_left]
  simp only [relayed, List.map_cons, List.map_nil, fieldsOf_relayMessage, StringOfBool_flag,
    decodeLight]

theorem int16be_range (hi lo : Nat) (hh : hi < 256) (hl : lo < 256) :
    -32768 ≤ int16be hi lo ∧ int16be hi lo ≤ 32767 := by
  unfold int16be
  split <;> omega

theorem finRange_four : List.finRange 4 = [0, 1, 2, 3] := by decide

theorem and_255 (x : Nat) : x &&& 255 = x % 256 := Nat.and_pow_two_sub_one_eq_mod x 8

theorem written_setLightThreshold (addr : Nat) (st : World) (v : Nat) :
    written st (setLightThreshold addr v st) = [0x01, v / 256 % 256, v % 256] := by
  simp [written, setLightThreshold, Wire_beginTransmission, Wire_write, Wire_endTransmission,
    payload, highByte, lowByte, and_255, Nat.shiftRight_eq_div_pow]

theorem written_uint32 (addr : Nat) (st : World) (v : Nat) :
    written st (setCalibrationInterval addr v st) =
      [0x02, v / 16777216 % 256, v / 65536 % 256, v / 256 % 256, v % 256] ∧
    written st (setVibrationStabilityTime addr v st) =
      [0x05, v / 16777216 % 256, v / 65536 % 256, v / 256 % 256, v % 256] ∧
    written st (setVibrationDebounceTime addr v st) =
      [0x06, v / 16777216 % 256, v / 65536 % 256, v / 256 % 256, v % 256] := by
  simp [written, setCalibrationInterval, setVibrationStabilityTime, setVibrationDebounceTime,
    Wire_beginTransmission, Wire_write, Wire_endTransmission,
    payload, and_255, Nat.shiftRight_eq_div_pow]

theorem written_float (addr : Nat) (st : World) (f : CFloat) :
    written st (setVibrationThreshold addr f st) =
      [0x03, (f.mem 0).val, (f.mem 1).val, (f.mem 2).val, (f.mem 3).val] ∧
    written st (setVibrationImpactThreshold addr f st) =
      [0x04, (f.mem 0).val, (f.mem 1).val, (f.mem 2).val, (f.mem 3).val] := by
  simp [written, setVibrationThreshold, setVibrationImpactThreshold, writeFloat,
    Wire_beginTransmission, Wire_write, Wire_endTransmission, finRange_four,
    payload, Nat.mod_eq_of_lt]

theorem written_sendFullConfig (addr : Nat) (st : World) (light cal stab deb : Nat)
    (vt vi : CFloat) :
    written st (sendFullConfig addr light cal vt vi stab deb st) =
      [light / 256 % 256, light % 256,
       cal / 16777216 % 256, cal / 65536 % 256, cal / 256 % 256, cal % 256,
       (vt.mem 0).val, (vt.mem 1).val, (vt.mem 2).val, (vt.mem 3).val,
       (vi.mem 0).val, (vi.mem 1).val, (vi.mem 2).val, (vi.mem 3).val,
       stab / 16777216 % 256, stab / 65536 % 256, stab / 256 % 256, stab % 256,
       deb / 16777216 % 256, deb / 65536 % 256, deb / 256 % 256, deb % 256] := by
  simp [written, sendFullConfig, Wire_beginTransmission, Wire_write, Wire_endTransmission,
    finRange_four, payload, highByte, lowByte, and_255, Nat.shiftRight_eq_div_pow,
    Nat.mod_eq_of_lt]

theorem written_writeFloat (st : World) (f : CFloat) :
    written st (writeFloat f st) = [(f.mem 0).val, (f.mem 1).val, (f.mem 2).val, (f.mem 3).val] := by
  simp [written, writeFloat, Wire_write, finRange_four, payload, Nat.mod_eq_of_lt]

theorem yesNo_flag (b : Byte) :
    yesNo (decide (b.val ≠ 0)) = if b.val ≠ 0 then "YES" else "NO" := by
  by_cases h : b.val = 0 <;> simp [yesNo, h]

theorem yesNo_not_flag (b : Byte) :
    yesNo (!decide (b.val ≠ 0)) = if b.val = 0 then "YES" else "NO" := by
  by_cases h : b.val = 0 <;> simp [yesNo, h]

theorem readSensorData_serial_of_frame (w : Nat) (peer : Peer) (addr : Nat) (st : World)
    (b0 b1 b2 b3 b4 b5 b6 b7 b8 b9 b10 : Byte)
    (h : peer addr 11 = [b0, b1, b2, b3, b4, b5, b6, b7, b8, b9, b10]) :
    (readSensorData w peer addr st).2.serial = st.serial ++ consoleLines
      ["=== Light Sensor ===",
       "Tampered: " ++ yesNo (decide (b0.val ≠ 0)),
       "Neutral Light: " ++ StringOfInt (decodeLight w b1 b2),
       "Current Light: " ++ StringOfInt (decodeLight w b3 b4),
       "\n=== Hall Effect Sensor ===",
       "Tampered: " ++ yesNo (decide (b5.val ≠ 0)),
       "\n=== Vibration Sensor ===",
       "Orientation Steady: " ++ yesNo (decide (b6.val ≠ 0)),
       "No Sudden Impact: " ++ yesNo (!decide (b7.val ≠ 0)),
       "Stable Long-Term: " ++ yesNo (decide (b8.val ≠ 0)),
       "Tampering Detected: " ++ yesNo (decide (b9.val ≠ 0)),
       "\n=== MODULE STATUS ===",
       "Tampered (2/3 sensors): " ++ yesNo (decide (b10.val ≠ 0)),
       "---------------------------\n"] := by
  have hav : Wire_available (Wire_requestFrom peer addr 11 st) = 11 := by
    simp [Wire_available, Wire_requestFrom, h]
  simp only [readSensorData, hav, ne_eq, not_true_eq_false, if_false, ite_false]
  simp only [Wire_requestFrom, h, Wire_read, sendViaLoRa, LoRa_beginPacket, LoRa_print,
    LoRa_endPacket, Serial_print, Serial_println, toUInt8_byte, toBool_byte, consoleLines,
    List.foldl_cons, List.foldl_nil, decodeLight, String.append_assoc, String.empty_append]

theorem digitValue_digitChar (d : Nat) (h : d < 10) : digitValue (Nat.digitChar d) = d := by
  interval_cases d <;> rfl

theorem toDigitsCore_value (fuel : Nat) : ∀ (n : Nat) (ds : List Char), n < fuel →
    ∃ pre, Nat.toDigitsCore 10 fuel n ds = pre ++ ds ∧ pre ≠ [] ∧
      (∀ c ∈ pre, c.isDigit = true) ∧
      pre.foldl (fun acc c => 10 * acc + digitValue c) 0 = n := by
  induction fuel with
  | zero => intro n ds h; omega
  | succ k ih =>
    intro n ds hn
    have hd : (Nat.digitChar (n % 10)).isDigit = true :=
      digitChar_isDigit _ (Nat.mod_lt _ (by norm_num))
    have hv : digitValue (Nat.digitChar (n % 10)) = n % 10 :=
      digitValue_digitChar _ (Nat.mod_lt _ (by norm_num))
    simp only [Nat.toDigitsCore]
    split
    · rename_i h0
      refine ⟨[Nat.digitChar (n % 10)], rfl, by simp, ?_, ?_⟩
      · intro c hc
        rw [List.mem_singleton] at hc
        rw [hc]; exact hd
      · simp only [List.foldl_cons, List.foldl_nil, hv]
        omega
    · rename_i h0
      have hlt : n / 10 < k := by omega
      obtain ⟨pre, hpre, _, hdig, hval⟩ := ih (n / 10) (Nat.digitChar (n % 10) :: ds) hlt
      refine ⟨pre ++ [Nat.digitChar (n % 10)], ?_, by simp, ?_, ?_⟩
      · rw [hpre]; simp
      · intro c hc
        rcases List.mem_append.mp hc with hc | hc
        · exact hdig c hc
        · rw [List.mem_singleton] at hc
          rw [hc]; exact hd
      · rw [List.foldl_append, hval]
        simp only [List.foldl_cons, List.foldl_nil, hv]
        omega

theorem repr_value (n : Nat) :
    (Nat.repr n).data ≠ [] ∧ (∀ c ∈ (Nat.repr n).data, c.isDigit = true) ∧
    (Nat.repr n).data.foldl (fun acc c => 10 * acc + digitValue c) 0 = n := by
  obtain ⟨pre, hpre, hne, hdig, hval⟩ := toDigitsCore_value (n + 1) n [] (Nat.lt_succ_self n)
  have hdata : (Nat.repr n).data = pre := by
    unfold Nat.repr Nat.toDigits
    rw [hpre]; simp [List.asString]
  rw [hdata]
  exact ⟨hne, hdig, hval⟩

theorem parseNat_repr (n : Nat) : parseNat (Nat.repr n).data = some n := by
  obtain ⟨hne, hdig, hval⟩ := repr_value n
  unfold parseNat
  have hall : (Nat.repr n).data.all Char.isDigit = true := List.all_eq_true.mpr hdig
  rw [if_pos ⟨hne, hall⟩, hval]

theorem parseDecimal_repr (n : Nat) : parseDecimal (Nat.repr n) = some (n : Int) := by
  obtain ⟨hne, hdig, _⟩ := repr_value n
  have hp := parseNat_repr n
  unfold parseDecimal
  cases hdata : (Nat.repr n).data with
  | nil => exact absurd hdata hne
  | cons c cs =>
    have hc : c.isDigit = true := hdig c (by rw [hdata]; exact List.mem_cons_self _ _)
    have hminus : c ≠ '-' := by
      intro hh; rw [hh] at hc; exact absurd hc (by decide)
    rw [hdata] at hp
    simp only [hminus, if_false, hp, Option.map_some']

theorem parseDecimal_StringOfInt (i : Int) : parseDecimal (StringOfInt i) = some i := by
  unfold StringOfInt
  split
  · rename_i hneg
    unfold parseDecimal
    have hd : ("-" ++ Nat.repr i.natAbs).data = '-' :: (Nat.repr i.natAbs).data := by
      simp [String.data_append]
    rw [hd]
    simp only [if_true, parseNat_repr, Option.map_some']
    rw [Int.ofNat_natAbs_of_nonpos (le_of_lt hneg), neg_neg]
  · rename_i hpos
    rw [parseDecimal_repr, Int.toNat_of_nonneg (not_lt.mp hpos)]


theorem StringOfInt_chars (i : Int) :
    ∀ c ∈ (StringOfInt i).data, c = ',' ∨ c.isDigit = true ∨ c = '-' := by
  unfold StringOfInt
  split
  · intro c hc
    simp only [String.data_append, List.mem_append] at hc
    rcases hc with hc | hc
    · have : c = '-' := by simpa using hc
      exact Or.inr (Or.inr this)
    · exact Or.inr (Or.inl (repr_isDigit _ c hc))
  · intro c hc
    exact Or.inr (Or.inl (repr_isDigit _ c hc))

theorem StringOfInt_count_comma (i : Int) : (StringOfInt i).data.count ',' = 0 :=
  List.count_eq_zero.mpr (fun hc => StringOfInt_no_comma i ',' hc rfl)

theorem repr_count_comma (n : Nat) : (Nat.repr n).data.count ',' = 0 :=
  List.count_eq_zero.mpr (fun hc => repr_no_comma n ',' hc rfl)

theorem relayMessage_commas (lt : Nat) (nl cl : Int) (ht : Nat) (so ns sl vt mt : Bool) :
    (relayMessage lt nl cl ht so ns sl vt mt).data.count ',' = 8 := by
  have hc : (",": String).data = [','] := rfl
  simp [relayMessage, String.data_append, List.count_append, hc, StringOfUChar, StringOfBool,
    StringOfInt_count_comma, repr_count_comma]

theorem relayMessage_chars (lt : Nat) (nl cl : Int) (ht : Nat) (so ns sl vt mt : Bool) :
    ∀ c ∈ (relayMessage lt nl cl ht so ns sl vt mt).data,
      c = ',' ∨ c.isDigit = true ∨ c = '-' := by
  have hc : (",": String).data = [','] := rfl
  have hu : ∀ n : Nat, StringOfUChar n = StringOfInt (n : Int) := fun n =>
    (StringOfInt_natCast n).symm
  intro c hmem
  simp only [relayMessage, String.data_append, List.mem_append, hc, List.mem_singleton,
    StringOfBool, hu] at hmem
  rcases hmem with
    ((((((((((((((((h | h) | h) | h) | h) | h) | h) | h) | h) | h) | h) | h) | h) | h) | h) | h) | h)
  all_goals first
    | exact StringOfInt_chars _ c h
    | exact Or.inl h

theorem relayMessage_parse (lt : Nat) (nl cl : Int) (ht : Nat) (so ns sl vt mt : Bool) :
    (fieldsOf (relayMessage lt nl cl ht so ns sl vt mt)).map parseDecimal =
      [some (lt : Int), some nl, some cl, some (ht : Int),
       some (if so then 1 else 0), some (if ns then 1 else 0), some (if sl then 1 else 0),
       some (if vt then 1 else 0), some (if mt then 1 else 0)] := by
  rw [fieldsOf_relayMessage]
  simp only [List.map_cons, List.map_nil, StringOfBool, StringOfUChar, parseDecimal_StringOfInt,
    parseDecimal_repr]

theorem relayed_sendViaLoRa (lt : Nat) (nl cl : Int) (ht : Nat) (so ns sl vt mt : Bool)
    (st : World) :
    relayed ((sendViaLoRa lt nl cl ht so ns sl vt mt st).radio.drop st.radio.length) =
      [relayMessage lt nl cl ht so ns sl vt mt] := by
  simp [sendViaLoRa, LoRa_beginPacket, LoRa_print, LoRa_endPacket, relayed]

theorem boolInt_inj (a b : Bool) (h : (if a then (1 : Int) else 0) = (if b then 1 else 0)) :
    a = b := by
  cases a <;> cases b <;> simp at h <;> rfl

/-! ## Telemetry pipeline: the poll and the relay message -/

/-- Claim C1: `readSensorData` returns `false` if and only if the number of
bytes available after the request of 11 bytes differs from 11, and `true`
exactly when 11 bytes are available; the number available is the length of
what the peer delivered. -/
theorem readSensorData_false_iff (w : Nat) (peer : Peer) (addr : Nat) (st : World) :
    ((readSensorData w peer addr st).1 = false ↔
      Wire_available (Wire_requestFrom peer addr 11 st) ≠ 11) ∧
    ((readSensorData w peer addr st).1 = true ↔
      Wire_available (Wire_requestFrom peer addr 11 st) = 11) ∧
    Wire_available (Wire_requestFrom peer addr 11 st) = (peer addr 11).length := by
  refine ⟨?_, ?_, rfl⟩
  · unfold readSensorData
    by_cases h : Wire_available (Wire_requestFrom peer addr 11 st) = 11 <;> simp [h]
  · unfold readSensorData
    by_cases h : Wire_available (Wire_requestFrom peer addr 11 st) = 11 <;> simp [h]

/-- Claim C2: when the number of available bytes is not 11, `readSensorData`
returns `false`, leaves every delivered byte unread in the receive buffer,
makes no call on the radio, makes no bus call besides the request itself, and
prints nothing but the line "Error: Incomplete data from slave". -/
theorem readSensorData_incomplete (w : Nat) (peer : Peer) (addr : Nat) (st : World)
    (h : Wire_available (Wire_requestFrom peer addr 11 st) ≠ 11) :
    (readSensorData w peer addr st).1 = false ∧
    (readSensorData w peer addr st).2.rx = (Wire_requestFrom peer addr 11 st).rx ∧
    (readSensorData w peer addr st).2.radio = st.radio ∧
    (readSensorData w peer addr st).2.bus = st.bus ++ [BusEvent.requestFrom addr 11] ∧
    (readSensorData w peer addr st).2.serial =
      st.serial ++ "Error: Incomplete data from slave" ++ "\r\n" := by
  have hr : readSensorData w peer addr st =
      (false, Serial_println "Error: Incomplete data from slave"
        (Wire_requestFrom peer addr 11 st)) := by
    simp only [readSensorData, if_pos h]
  rw [hr]
  simp [Serial_println, Wire_requestFrom]

/-- Witness for C2: polls that find 12 bytes and 10 bytes. -/
theorem readSensorData_incomplete_witness :
    (Wire_available (Wire_requestFrom (deliver [1, 2, 3, 4, 5, 6, 7, 8, 9, 10, 11, 12]) 8 11 idle)
        ≠ 11 ∧
      (readSensorData 16 (deliver [1, 2, 3, 4, 5, 6, 7, 8, 9, 10, 11, 12]) 8 idle).1 = false ∧
      (readSensorData 16 (deliver [1, 2, 3, 4, 5, 6, 7, 8, 9, 10, 11, 12]) 8 idle).2.rx =
        [1, 2, 3, 4, 5, 6, 7, 8, 9, 10, 11, 12] ∧
      (readSensorData 16 (deliver [1, 2, 3, 4, 5, 6, 7, 8, 9, 10, 11, 12]) 8 idle).2.radio = []) ∧
    (Wire_available (Wire_requestFrom (deliver [1, 2, 3, 4, 5, 6, 7, 8, 9, 10]) 8 11 idle) ≠ 11 ∧
      (readSensorData 16 (deliver [1, 2, 3, 4, 5, 6, 7, 8, 9, 10]) 8 idle).1 = false ∧
      (readSensorData 16 (deliver [1, 2, 3, 4, 5, 6, 7, 8, 9, 10]) 8 idle).2.rx =
        [1, 2, 3, 4, 5, 6, 7, 8, 9, 10] ∧
      (readSensorData 16 (deliver [1, 2, 3, 4, 5, 6, 7, 8, 9, 10]) 8 idle).2.radio = []) :=
  ⟨⟨by decide,
    (readSensorData_incomplete 16 (deliver [1, 2, 3, 4, 5, 6, 7, 8, 9, 10, 11, 12]) 8 idle
      (by decide)).1,
    (readSensorData_incomplete 16 (deliver [1, 2, 3, 4, 5, 6, 7, 8, 9, 10, 11, 12]) 8 idle
      (by decide)).2.1,
    (readSensorData_incomplete 16 (deliver [1, 2, 3, 4, 5, 6, 7, 8, 9, 10, 11, 12]) 8 idle
      (by decide)).2.2.1⟩,
   ⟨by decide,
    (readSensorData_incomplete 16 (deliver [1, 2, 3, 4, 5, 6, 7, 8, 9, 10]) 8 idle (by decide)).1,
    (readSensorData_incomplete 16 (deliver [1, 2, 3, 4, 5, 6, 7, 8, 9, 10]) 8 idle (by decide)).2.1,
    (readSensorData_incomplete 16 (deliver [1, 2, 3, 4, 5, 6, 7, 8, 9, 10]) 8 idle
      (by decide)).2.2.1⟩⟩

/-- Claim C3: for an 11-byte frame whose seven flag bytes are 0 or 1 and whose
two 16-bit values are below 32768, the poll succeeds and hands to the radio,
between `beginPacket` and `endPacket`, the decimal texts of `b0`,
`256*b1+b2`, `256*b3+b4`, `b5`, ..., `b10` joined by commas; the frame of
the specification is relayed as "1,100,50,1,1,0,1,0,1". This holds for every
width `w ≥ 16` of `int`. -/
theorem readSensorData_relays_decimal (w : Nat) (hw : 16 ≤ w) (peer : Peer) (addr : Nat)
    (st : World) (b0 b1 b2 b3 b4 b5 b6 b7 b8 b9 b10 : Byte)
    (h : peer addr 11 = [b0, b1, b2, b3, b4, b5, b6, b7, b8, b9, b10])
    (f0 : b0.val ≤ 1) (f5 : b5.val ≤ 1) (f6 : b6.val ≤ 1) (f7 : b7.val ≤ 1)
    (f8 : b8.val ≤ 1) (f9 : b9.val ≤ 1) (f10 : b10.val ≤ 1)
    (hn : 256 * b1.val + b2.val < 32768) (hc : 256 * b3.val + b4.val < 32768) :
    (readSensorData w peer addr st).1 = true ∧
    (readSensorData w peer addr st).2.radio = st.radio ++
      [RadioEvent.beginPacket,
       RadioEvent.print (String.intercalate ","
         [Nat.repr b0.val, Nat.repr (256 * b1.val + b2.val), Nat.repr (256 * b3.val + b4.val),
          Nat.repr b5.val, Nat.repr b6.val, Nat.repr b7.val, Nat.repr b8.val, Nat.repr b9.val,
          Nat.repr b10.val]),
       RadioEvent.endPacket] ∧
    (peer addr 11 = specFrame →
      (readSensorData w peer addr st).2.radio = st.radio ++
        [RadioEvent.beginPacket, RadioEvent.print "1,100,50,1,1,0,1,0,1",
         RadioEvent.endPacket]) := by
  have hmain := readSensorData_of_frame w peer addr st b0 b1 b2 b3 b4 b5 b6 b7 b8 b9 b10 h
  rw [decode_small w _ _ hw b1.isLt b2.isLt hn, decode_small w _ _ hw b3.isLt b4.isLt hc] at hmain
  have hmsg : relayMessage b0.val ((256 * b1.val + b2.val : Nat) : Int)
      ((256 * b3.val + b4.val : Nat) : Int) b5.val (decide (b6.val ≠ 0)) (decide (b7.val ≠ 0))
      (decide (b8.val ≠ 0)) (decide (b9.val ≠ 0)) (decide (b10.val ≠ 0)) =
      String.intercalate ","
         [Nat.repr b0.val, Nat.repr (256 * b1.val + b2.val), Nat.repr (256 * b3.val + b4.val),
          Nat.repr b5.val, Nat.repr b6.val, Nat.repr b7.val, Nat.repr b8.val, Nat.repr b9.val,
          Nat.repr b10.val] := by
    unfold relayMessage
    rw [StringOfInt_natCast, StringOfInt_natCast, StringOfBool_le_one b6 f6,
      StringOfBool_le_one b7 f7, StringOfBool_le_one b8 f8, StringOfBool_le_one b9 f9,
      StringOfBool_le_one b10 f10]
    simp [String.intercalate, String.intercalate.go, StringOfUChar]
  rw [hmsg] at hmain
  refine ⟨hmain.1, hmain.2.2, ?_⟩
  intro hs
  rw [hmain.2.2]
  rw [h] at hs
  simp only [specFrame, List.cons.injEq, and_true] at hs
  obtain ⟨e0, e1, e2, e3, e4, e5, e6, e7, e8, e9, e10⟩ := hs
  subst e0 e1 e2 e3 e4 e5 e6 e7 e8 e9 e10
  rfl

/-- Witness for C3: the frame of the specification on a board with 16-bit `int`. -/
theorem readSensorData_relays_decimal_witness :
    (readSensorData 16 (deliver specFrame) 8 idle).2.radio =
      [RadioEvent.beginPacket, RadioEvent.print "1,100,50,1,1,0,1,0,1", RadioEvent.endPacket] :=
  (readSensorData_relays_decimal 16 (by decide) (deliver specFrame) 8 idle
    0x01 0x00 0x64 0x00 0x32 0x01 0x01 0x00 0x01 0x00 0x01 rfl
    (by decide) (by decide) (by decide) (by decide) (by decide) (by decide) (by decide)
    (by decide) (by decide)).2.2 rfl

/-- Counterexample to C4 as stated: on a board whose `int` has 32 bits the byte
pair 0xFF, 0xFE decodes to 65534, which is above 32767, and the pair 0x80, 0x00
to 32768; they are relayed as "65534" and "32768", not as "-2" and "-32768". -/
theorem decodeLight_wide_counterexample :
    decodeLight 32 0xFF 0xFE = 65534 ∧ ¬ (decodeLight 32 0xFF 0xFE ≤ 32767) ∧
    relayedFields 32 (deliver [0, 0xFF, 0xFE, 0x80, 0x00, 0, 0, 0, 0, 0, 0]) 8 idle =
      [["0", "65534", "32768", "0", "0", "0", "0", "0", "0"]] := by
  decide

/-- Claim C4 (amended): the second and third fields of the relay message are
the decimal texts of the two light values, each decoded from its byte pair with
the byte at the lower offset as the high byte and wrapped to the width `w` of
`int`. Where `int` has 16 bits the value is the big-endian signed 16-bit
reading and lies in [-32768, 32767]; where `int` is wider it is the unsigned
value `256*hi+lo`, in [0, 65535]. -/
theorem decodeLight_by_int_width (w : Nat) (hw : 16 ≤ w) (peer : Peer) (addr : Nat)
    (st : World) (b0 b1 b2 b3 b4 b5 b6 b7 b8 b9 b10 : Byte)
    (h : peer addr 11 = [b0, b1, b2, b3, b4, b5, b6, b7, b8, b9, b10]) :
    (relayedFields w peer addr st).map (fun fs => (fs[1]?, fs[2]?)) =
      [(some (StringOfInt (decodeLight w b1 b2)), some (StringOfInt (decodeLight w b3 b4)))] ∧
    decodeLight w b1 b2 = wrapInt w ((256 * b1.val + b2.val : Nat) : Int) ∧
    decodeLight w b3 b4 = wrapInt w ((256 * b3.val + b4.val : Nat) : Int) ∧
    (w = 16 →
      decodeLight w b1 b2 = int16be b1.val b2.val ∧
      decodeLight w b3 b4 = int16be b3.val b4.val ∧
      -32768 ≤ decodeLight w b1 b2 ∧ decodeLight w b1 b2 ≤ 32767 ∧
      -32768 ≤ decodeLight w b3 b4 ∧ decodeLight w b3 b4 ≤ 32767) ∧
    (16 < w →
      decodeLight w b1 b2 = ((256 * b1.val + b2.val : Nat) : Int) ∧
      decodeLight w b3 b4 = ((256 * b3.val + b4.val : Nat) : Int)) := by
  refine ⟨?_, decode_eq_wrap w _ _ hw b1.isLt b2.isLt, decode_eq_wrap w _ _ hw b3.isLt b4.isLt,
    ?_, ?_⟩
  · rw [relayedFields_of_frame w peer addr st b0 b1 b2 b3 b4 b5 b6 b7 b8 b9 b10 h]
    rfl
  · intro hw16
    subst hw16
    have h1 : decodeLight 16 b1 b2 = int16be b1.val b2.val := decode_int16 _ _ b1.isLt b2.isLt
    have h2 : decodeLight 16 b3 b4 = int16be b3.val b4.val := decode_int16 _ _ b3.isLt b4.isLt
    have r1 := int16be_range b1.val b2.val b1.isLt b2.isLt
    have r2 := int16be_range b3.val b4.val b3.isLt b4.isLt
    rw [h1, h2]
    exact ⟨rfl, rfl, r1.1, r1.2, r2.1, r2.2⟩
  · intro hwide
    exact ⟨decode_wide w _ _ hwide b1.isLt b2.isLt, decode_wide w _ _ hwide b3.isLt b4.isLt⟩

/-- Witness for C4: with 16-bit `int` the pair 0xFF, 0xFE is relayed as "-2". -/
theorem decodeLight_by_int_width_witness :
    (relayedFields 16 (deliver [0, 0xFF, 0xFE, 0x80, 0x00, 0, 0, 0, 0, 0, 0]) 8 idle).map
        (fun fs => (fs[1]?, fs[2]?)) = [(some "-2", some "-32768")] ∧
    decodeLight 16 0xFF 0xFE = -2 :=
  ⟨(decodeLight_by_int_width 16 (by decide)
      (deliver [0, 0xFF, 0xFE, 0x80, 0x00, 0, 0, 0, 0, 0, 0]) 8 idle
      0 0xFF 0xFE 0x80 0x00 0 0 0 0 0 0 rfl).1,
   by decide⟩

/-- Counterexample to C5 as stated: the flag bytes 0x02 at offset 0 and 0xFF at
offset 5 are nonzero, yet the fields lightTampered and hallTampered are relayed
as "2" and "255", not as "1". -/
theorem flag_fields_counterexample :
    relayedFields 16 (deliver [0x02, 0, 0, 0, 0, 0xFF, 0, 0, 0, 0, 0]) 8 idle =
      [["2", "0", "0", "255", "0", "0", "0", "0", "0"]] := by
  decide

/-- Claim C5 (amended): the five fields steadyOrientation, noSuddenImpact-raw,
stableLongTerm, vibrationTampered and moduleTampered (offsets 6 to 10, type
`bool`) are each rendered as exactly "1" when the frame byte is nonzero and
"0" when it is zero, also for bytes greater than 1; lightTampered and
hallTampered (offsets 0 and 5, type `uint8_t`) are rendered as the decimal text
of the byte. -/
theorem flag_fields_rendering (w : Nat) (peer : Peer) (addr : Nat) (st : World)
    (b0 b1 b2 b3 b4 b5 b6 b7 b8 b9 b10 : Byte)
    (h : peer addr 11 = [b0, b1, b2, b3, b4, b5, b6, b7, b8, b9, b10]) :
    relayedFields w peer addr st =
      [[Nat.repr b0.val, StringOfInt (decodeLight w b1 b2), StringOfInt (decodeLight w b3 b4),
        Nat.repr b5.val,
        if b6.val ≠ 0 then "1" else "0", if b7.val ≠ 0 then "1" else "0",
        if b8.val ≠ 0 then "1" else "0", if b9.val ≠ 0 then "1" else "0",
        if b10.val ≠ 0 then "1" else "0"]] :=
  relayedFields_of_frame w peer addr st b0 b1 b2 b3 b4 b5 b6 b7 b8 b9 b10 h

/-- Witness for C5: flag bytes 0x02, 0xFF and 0x80 in the `bool` positions. -/
theorem flag_fields_rendering_witness :
    relayedFields 16 (deliver [0x02, 0, 1, 0, 2, 0xFF, 0x02, 0xFF, 0, 1, 0x80]) 8 idle =
      [["2", "1", "2", "255", "1", "1", "0", "1", "1"]] :=
  flag_fields_rendering 16 (deliver [0x02, 0, 1, 0, 2, 0xFF, 0x02, 0xFF, 0, 1, 0x80]) 8 idle
    0x02 0 1 0 2 0xFF 0x02 0xFF 0 1 0x80 rfl

/-- Claim C6: the sixth field of the relay message is rendered from the byte at
offset 7 without inversion: "1" if that byte is nonzero, "0" if it is zero. -/
theorem noSuddenImpact_relayed_raw (w : Nat) (peer : Peer) (addr : Nat) (st : World)
    (b0 b1 b2 b3 b4 b5 b6 b7 b8 b9 b10 : Byte)
    (h : peer addr 11 = [b0, b1, b2, b3, b4, b5, b6, b7, b8, b9, b10]) :
    (relayedFields w peer addr st).map (fun fs => fs[5]?) =
      [some (if b7.val ≠ 0 then "1" else "0")] := by
  rw [relayedFields_of_frame w peer addr st b0 b1 b2 b3 b4 b5 b6 b7 b8 b9 b10 h]
  rfl

/-- Witness for C6: byte 7 equal to 0x01 is relayed as "1". -/
theorem noSuddenImpact_relayed_raw_witness :
    (relayedFields 16 (deliver [0, 0, 0, 0, 0, 0, 0, 0x01, 0, 0, 0]) 8 idle).map
        (fun fs => fs[5]?) = [some "1"] :=
  noSuddenImpact_relayed_raw 16 (deliver [0, 0, 0, 0, 0, 0, 0, 0x01, 0, 0, 0]) 8 idle
    0 0 0 0 0 0 0 0x01 0 0 0 rfl

/-- Claim C7: the relay message has nine fields and the last one,
moduleTampered, is "1" iff the byte at offset 10 is nonzero, whatever the bytes
at offsets 0, 5 and 9: the field is passed through, never recomputed. -/
theorem moduleTampered_passed_through (w : Nat) (peer : Peer) (addr : Nat) (st : World)
    (b0 b1 b2 b3 b4 b5 b6 b7 b8 b9 b10 : Byte)
    (h : peer addr 11 = [b0, b1, b2, b3, b4, b5, b6, b7, b8, b9, b10]) :
    (relayedFields w peer addr st).map (fun fs => (fs.length, fs[8]?)) =
      [(9, some (if b10.val ≠ 0 then "1" else "0"))] := by
  rw [relayedFields_of_frame w peer addr st b0 b1 b2 b3 b4 b5 b6 b7 b8 b9 b10 h]
  rfl

/-- Witness for C7: the three sensor flags are 0 and byte 10 is 1. -/
theorem moduleTampered_passed_through_witness :
    (relayedFields 16 (deliver [0, 0, 0, 0, 0, 0, 0, 0, 0, 0, 0x01]) 8 idle).map
        (fun fs => (fs.length, fs[8]?)) = [(9, some "1")] :=
  moduleTampered_passed_through 16 (deliver [0, 0, 0, 0, 0, 0, 0, 0, 0, 0, 0x01]) 8 idle
    0 0 0 0 0 0 0 0 0 0 0x01 rfl

/-! ## Configuration encoder: payloads -/

/-- Claim C8: each of the six single-parameter setters writes exactly
1 + width bytes: its identifier byte (0x01 to 0x06) followed by the value, most
significant byte first for the uint16 and the three uint32 parameters (so that
big-endian decoding of the bytes after the identifier gives the input back)
and the four bytes of the object representation in address order for the two
float parameters. -/
theorem setters_payload (addr : Nat) (st : World) (light interval stab deb : Nat)
    (vt vi : CFloat) (hl : light < 65536) (hi : interval < 4294967296)
    (hs : stab < 4294967296) (hd : deb < 4294967296) :
    (written st (setLightThreshold addr light st) = [0x01, light / 256, light % 256] ∧
      (written st (setLightThreshold addr light st)).length = 1 + 2 ∧
      fromBigEndian (written st (setLightThreshold addr light st)).tail = light) ∧
    (written st (setCalibrationInterval addr interval st) =
        [0x02, interval / 16777216, interval / 65536 % 256, interval / 256 % 256,
          interval % 256] ∧
      (written st (setCalibrationInterval addr interval st)).length = 1 + 4 ∧
      fromBigEndian (written st (setCalibrationInterval addr interval st)).tail = interval) ∧
    (written st (setVibrationThreshold addr vt st) =
        [0x03, (vt.mem 0).val, (vt.mem 1).val, (vt.mem 2).val, (vt.mem 3).val] ∧
      (written st (setVibrationThreshold addr vt st)).length = 1 + 4) ∧
    (written st (setVibrationImpactThreshold addr vi st) =
        [0x04, (vi.mem 0).val, (vi.mem 1).val, (vi.mem 2).val, (vi.mem 3).val] ∧
      (written st (setVibrationImpactThreshold addr vi st)).length = 1 + 4) ∧
    (written st (setVibrationStabilityTime addr stab st) =
        [0x05, stab / 16777216, stab / 65536 % 256, stab / 256 % 256, stab % 256] ∧
      (written st (setVibrationStabilityTime addr stab st)).length = 1 + 4 ∧
      fromBigEndian (written st (setVibrationStabilityTime addr stab st)).tail = stab) ∧
    (written st (setVibrationDebounceTime addr deb st) =
        [0x06, deb / 16777216, deb / 65536 % 256, deb / 256 % 256, deb % 256] ∧
      (written st (setVibrationDebounceTime addr deb st)).length = 1 + 4 ∧
      fromBigEndian (written st (setVibrationDebounceTime addr deb st)).tail = deb) := by
  rw [written_setLightThreshold, (written_uint32 addr st interval).1,
    (written_uint32 addr st stab).2.1, (written_uint32 addr st deb).2.2,
    (written_float addr st vt).1, (written_float addr st vi).2]
  have e1 : light / 256 % 256 = light / 256 := Nat.mod_eq_of_lt (by omega)
  have e2 : interval / 16777216 % 256 = interval / 16777216 := Nat.mod_eq_of_lt (by omega)
  have e3 : stab / 16777216 % 256 = stab / 16777216 := Nat.mod_eq_of_lt (by omega)
  have e4 : deb / 16777216 % 256 = deb / 16777216 := Nat.mod_eq_of_lt (by omega)
  rw [e1, e2, e3, e4]
  simp only [fromBigEndian, List.tail_cons, List.foldl_cons, List.foldl_nil, List.length_cons,
    List.length_nil, true_and, and_true]
  refine ⟨?_, ?_, ?_, ?_⟩ <;> omega

/-- Witness for C8: the six setters at concrete values. -/
theorem setters_payload_witness :
    written idle (setLightThreshold 8 0xABCD idle) = [0x01, 0xAB, 0xCD] ∧
    written idle (setCalibrationInterval 8 0x01020304 idle) = [0x02, 0x01, 0x02, 0x03, 0x04] ∧
    written idle (setVibrationThreshold 8 floatOne idle) = [0x03, 0x00, 0x00, 0x80, 0x3F] ∧
    written idle (setVibrationDebounceTime 8 0xFFFFFFFF idle) = [0x06, 0xFF, 0xFF, 0xFF, 0xFF] :=
  ⟨(setters_payload 8 idle 0xABCD 0x01020304 0 0xFFFFFFFF floatOne floatOne
      (by decide) (by decide) (by decide) (by decide)).1.1,
   (setters_payload 8 idle 0xABCD 0x01020304 0 0xFFFFFFFF floatOne floatOne
      (by decide) (by decide) (by decide) (by decide)).2.1.1,
   (setters_payload 8 idle 0xABCD 0x01020304 0 0xFFFFFFFF floatOne floatOne
      (by decide) (by decide) (by decide) (by decide)).2.2.1.1,
   (setters_payload 8 idle 0xABCD 0x01020304 0 0xFFFFFFFF floatOne floatOne
      (by decide) (by decide) (by decide) (by decide)).2.2.2.2.2.1⟩

/-- Counterexample to C9 as stated: a call of `sendFullConfig` writes 22 payload
bytes, not 26. -/
theorem sendFullConfig_length_counterexample :
    written idle
        (sendFullConfig 8 0x0102 0x03040506 floatOne floatOne 0x0708090A 0x0B0C0D0E idle) =
      [0x01, 0x02, 0x03, 0x04, 0x05, 0x06, 0x00, 0x00, 0x80, 0x3F, 0x00, 0x00, 0x80, 0x3F,
       0x07, 0x08, 0x09, 0x0A, 0x0B, 0x0C, 0x0D, 0x0E] ∧
    (written idle
        (sendFullConfig 8 0x0102 0x03040506 floatOne floatOne 0x0708090A 0x0B0C0D0E
          idle)).length ≠ 26 := by
  decide

/-- Claim C9 (amended): `sendFullConfig` writes exactly 22 payload bytes
(2+4+4+4+4+4) with no identifier byte, in the fixed order lightThreshold
(2 bytes, big-endian), calibrationInterval (4 bytes, big-endian), vibThreshold
(4 bytes of the object representation), vibImpactThreshold (likewise),
vibStabilityTime (4 bytes, big-endian), vibDebounceTime (4 bytes, big-endian):
the fields start at offsets 0, 2, 6, 10, 14 and 18. -/
theorem sendFullConfig_payload (addr : Nat) (st : World) (light cal stab deb : Nat)
    (vt vi : CFloat) (hl : light < 65536) (hc : cal < 4294967296)
    (hs : stab < 4294967296) (hd : deb < 4294967296) :
    written st (sendFullConfig addr light cal vt vi stab deb st) =
      [light / 256, light % 256,
       cal / 16777216, cal / 65536 % 256, cal / 256 % 256, cal % 256,
       (vt.mem 0).val, (vt.mem 1).val, (vt.mem 2).val, (vt.mem 3).val,
       (vi.mem 0).val, (vi.mem 1).val, (vi.mem 2).val, (vi.mem 3).val,
       stab / 16777216, stab / 65536 % 256, stab / 256 % 256, stab % 256,
       deb / 16777216, deb / 65536 % 256, deb / 256 % 256, deb % 256] ∧
    (written st (sendFullConfig addr light cal vt vi stab deb st)).length = 22 ∧
    fromBigEndian ((written st (sendFullConfig addr light cal vt vi stab deb st)).take 2)
      = light ∧
    fromBigEndian
      (((written st (sendFullConfig addr light cal vt vi stab deb st)).drop 2).take 4) = cal ∧
    ((written st (sendFullConfig addr light cal vt vi stab deb st)).drop 6).take 4 =
      [(vt.mem 0).val, (vt.mem 1).val, (vt.mem 2).val, (vt.mem 3).val] ∧
    ((written st (sendFullConfig addr light cal vt vi stab deb st)).drop 10).take 4 =
      [(vi.mem 0).val, (vi.mem 1).val, (vi.mem 2).val, (vi.mem 3).val] ∧
    fromBigEndian
      (((written st (sendFullConfig addr light cal vt vi stab deb st)).drop 14).take 4) = stab ∧
    fromBigEndian
      ((written st (sendFullConfig addr light cal vt vi stab deb st)).drop 18) = deb := by
  rw [written_sendFullConfig]
  have e1 : light / 256 % 256 = light / 256 := Nat.mod_eq_of_lt (by omega)
  have e2 : cal / 16777216 % 256 = cal / 16777216 := Nat.mod_eq_of_lt (by omega)
  have e3 : stab / 16777216 % 256 = stab / 16777216 := Nat.mod_eq_of_lt (by omega)
  have e4 : deb / 16777216 % 256 = deb / 16777216 := Nat.mod_eq_of_lt (by omega)
  rw [e1, e2, e3, e4]
  simp only [fromBigEndian, List.take, List.drop, List.foldl_cons, List.foldl_nil,
    List.length_cons, List.length_nil, true_and, and_true]
  refine ⟨?_, ?_, ?_, ?_⟩ <;> omega

/-- Witness for C9: one full configuration at concrete values. -/
theorem sendFullConfig_payload_witness :
    written idle
        (sendFullConfig 8 0x0102 0x03040506 floatOne floatOne 0x0708090A 0x0B0C0D0E idle) =
      [0x01, 0x02, 0x03, 0x04, 0x05, 0x06, 0x00, 0x00, 0x80, 0x3F, 0x00, 0x00, 0x80, 0x3F,
       0x07, 0x08, 0x09, 0x0A, 0x0B, 0x0C, 0x0D, 0x0E] :=
  (sendFullConfig_payload 8 idle 0x0102 0x03040506 0x0708090A 0x0B0C0D0E floatOne floatOne
    (by decide) (by decide) (by decide) (by decide)).1

/-- Claim C10: for every V in [0, 65535], `setLightThreshold` writes after the
identifier byte two bytes h, l with 256*h + l = V, so that two values with the
same payload are equal. -/
theorem setLightThreshold_roundtrip (addr : Nat) (st : World) (v v2 : Nat)
    (hv : v < 65536) (hv2 : v2 < 65536) :
    (∃ h l, written st (setLightThreshold addr v st) = [0x01, h, l] ∧
      h < 256 ∧ l < 256 ∧ 256 * h + l = v) ∧
    (written st (setLightThreshold addr v st) = written st (setLightThreshold addr v2 st) →
      v = v2) := by
  rw [written_setLightThreshold, written_setLightThreshold]
  refine ⟨⟨v / 256 % 256, v % 256, rfl, ?_, ?_, ?_⟩, ?_⟩
  · omega
  · omega
  · omega
  · intro h
    simp only [List.cons.injEq, and_true, true_and] at h
    omega

/-- Witness for C10: the value 0xABCD against 0x1234. -/
theorem setLightThreshold_roundtrip_witness :
    (∃ h l, written idle (setLightThreshold 8 0xABCD idle) = [0x01, h, l] ∧
      h < 256 ∧ l < 256 ∧ 256 * h + l = 0xABCD) ∧
    (written idle (setLightThreshold 8 0xABCD idle) =
        written idle (setLightThreshold 8 0x1234 idle) → 0xABCD = 0x1234) :=
  setLightThreshold_roundtrip 8 idle 0xABCD 0x1234 (by decide) (by decide)

/-! ## Configuration encoder: transactions -/

/-- Claim C11: every operation of the configuration encoder (`sendFullConfig`
and the six setters) appends to the bus trace exactly one `beginTransmission`
addressed to the stored slave address, then one write for each byte of its
whole payload (the 22 field bytes for `sendFullConfig`, the identifier and the
value bytes for a setter) and nothing else, then exactly one `endTransmission`
as the last event. The functions are total, so no call ends with the
transaction open. -/
theorem config_transactions (addr : Nat) (st : World) (light cal stab deb : Nat)
    (vt vi : CFloat) :
    (sendFullConfig addr light cal vt vi stab deb st).bus =
      st.bus ++ [BusEvent.beginTransmission addr] ++
        List.map BusEvent.write
          [light / 256 % 256, light % 256,
           cal / 16777216 % 256, cal / 65536 % 256, cal / 256 % 256, cal % 256,
           (vt.mem 0).val, (vt.mem 1).val, (vt.mem 2).val, (vt.mem 3).val,
           (vi.mem 0).val, (vi.mem 1).val, (vi.mem 2).val, (vi.mem 3).val,
           stab / 16777216 % 256, stab / 65536 % 256, stab / 256 % 256, stab % 256,
           deb / 16777216 % 256, deb / 65536 % 256, deb / 256 % 256, deb % 256] ++
        [BusEvent.endTransmission] ∧
    (setLightThreshold addr light st).bus =
      st.bus ++ [BusEvent.beginTransmission addr] ++
        List.map BusEvent.write [0x01, light / 256 % 256, light % 256] ++
        [BusEvent.endTransmission] ∧
    (setCalibrationInterval addr cal st).bus =
      st.bus ++ [BusEvent.beginTransmission addr] ++
        List.map BusEvent.write
          [0x02, cal / 16777216 % 256, cal / 65536 % 256, cal / 256 % 256, cal % 256] ++
        [BusEvent.endTransmission] ∧
    (setVibrationThreshold addr vt st).bus =
      st.bus ++ [BusEvent.beginTransmission addr] ++
        List.map BusEvent.write
          [0x03, (vt.mem 0).val, (vt.mem 1).val, (vt.mem 2).val, (vt.mem 3).val] ++
        [BusEvent.endTransmission] ∧
    (setVibrationImpactThreshold addr vi st).bus =
      st.bus ++ [BusEvent.beginTransmission addr] ++
        List.map BusEvent.write
          [0x04, (vi.mem 0).val, (vi.mem 1).val, (vi.mem 2).val, (vi.mem 3).val] ++
        [BusEvent.endTransmission] ∧
    (setVibrationStabilityTime addr stab st).bus =
      st.bus ++ [BusEvent.beginTransmission addr] ++
        List.map BusEvent.write
          [0x05, stab / 16777216 % 256, stab / 65536 % 256, stab / 256 % 256, stab % 256] ++
        [BusEvent.endTransmission] ∧
    (setVibrationDebounceTime addr deb st).bus =
      st.bus ++ [BusEvent.beginTransmission addr] ++
        List.map BusEvent.write
          [0x06, deb / 16777216 % 256, deb / 65536 % 256, deb / 256 % 256, deb % 256] ++
        [BusEvent.endTransmission] := by
  simp [sendFullConfig, setLightThreshold, setCalibrationInterval, setVibrationThreshold,
    setVibrationImpactThreshold, setVibrationStabilityTime, setVibrationDebounceTime, writeFloat,
    Wire_beginTransmission, Wire_write, Wire_endTransmission, finRange_four, highByte, lowByte,
    and_255, Nat.shiftRight_eq_div_pow, Nat.mod_eq_of_lt]

/-- Counterexample to C14 as stated: the payload of `sendFullConfig`, and the
concatenation of the six setter payloads without their identifier bytes, have
22 bytes, not 26. -/
theorem sendFullConfig_concat_counterexample :
    (written idle (sendFullConfig 8 1 2 floatOne floatOne 3 4 idle)).length = 22 ∧
    ((written idle (setLightThreshold 8 1 idle)).tail ++
      (written idle (setCalibrationInterval 8 2 idle)).tail ++
      (written idle (setVibrationThreshold 8 floatOne idle)).tail ++
      (written idle (setVibrationImpactThreshold 8 floatOne idle)).tail ++
      (written idle (setVibrationStabilityTime 8 3 idle)).tail ++
      (written idle (setVibrationDebounceTime 8 4 idle)).tail).length = 22 ∧
    (written idle (sendFullConfig 8 1 2 floatOne floatOne 3 4 idle)).length ≠ 26 := by
  decide

/-- Claim C14 (amended): the 22-byte payload of `sendFullConfig` equals the
concatenation, in the order light, calibration, vibThreshold, vibImpact,
vibStability, vibDebounce, of the payloads of the six setters called with the
same values with each leading identifier byte removed; the two inline float
loops (offsets 6 and 10) emit the same four bytes as `writeFloat`. -/
theorem sendFullConfig_concat_setters (addr : Nat) (st : World) (light cal stab deb : Nat)
    (vt vi : CFloat) :
    written st (sendFullConfig addr light cal vt vi stab deb st) =
      (written st (setLightThreshold addr light st)).tail ++
      (written st (setCalibrationInterval addr cal st)).tail ++
      (written st (setVibrationThreshold addr vt st)).tail ++
      (written st (setVibrationImpactThreshold addr vi st)).tail ++
      (written st (setVibrationStabilityTime addr stab st)).tail ++
      (written st (setVibrationDebounceTime addr deb st)).tail ∧
    (written st (sendFullConfig addr light cal vt vi stab deb st)).length = 22 ∧
    ((written st (sendFullConfig addr light cal vt vi stab deb st)).drop 6).take 4 =
      written st (writeFloat vt st) ∧
    ((written st (sendFullConfig addr light cal vt vi stab deb st)).drop 10).take 4 =
      written st (writeFloat vi st) := by
  rw [written_sendFullConfig, written_setLightThreshold, (written_uint32 addr st cal).1,
    (written_uint32 addr st stab).2.1, (written_uint32 addr st deb).2.2,
    (written_float addr st vt).1, (written_float addr st vi).2, written_writeFloat,
    written_writeFloat]
  simp

/-! ## Telemetry pipeline: packet format and console report -/

/-- Claim C12: a successful poll of an 11-byte frame makes exactly the radio
calls `beginPacket`, one `print`, `endPacket`; the printed text has exactly nine
comma-separated fields, each of which reads as a decimal integer (so none is
empty and the text neither starts nor ends with a separator), exactly eight
commas, and no character other than commas, digits and minus signs. -/
theorem relay_packet_format (w : Nat) (peer : Peer) (addr : Nat) (st : World)
    (b0 b1 b2 b3 b4 b5 b6 b7 b8 b9 b10 : Byte)
    (h : peer addr 11 = [b0, b1, b2, b3, b4, b5, b6, b7, b8, b9, b10]) :
    ∃ msg, (readSensorData w peer addr st).2.radio =
        st.radio ++ [RadioEvent.beginPacket, RadioEvent.print msg, RadioEvent.endPacket] ∧
      (fieldsOf msg).length = 9 ∧
      (∀ f ∈ fieldsOf msg, ∃ v : Int, parseDecimal f = some v) ∧
      msg.data.count ',' = 8 ∧
      (∀ c ∈ msg.data, c = ',' ∨ c.isDigit = true ∨ c = '-') := by
  refine ⟨_, (readSensorData_of_frame w peer addr st b0 b1 b2 b3 b4 b5 b6 b7 b8 b9 b10 h).2.2,
    ?_, ?_, relayMessage_commas _ _ _ _ _ _ _ _ _, relayMessage_chars _ _ _ _ _ _ _ _ _⟩
  · rw [fieldsOf_relayMessage]; rfl
  · intro f hf
    have hp := relayMessage_parse b0.val
      (int_or w (int_shl w (b1.val : Int) 8) (b2.val : Int))
      (int_or w (int_shl w (b3.val : Int) 8) (b4.val : Int))
      b5.val (decide (b6.val ≠ 0)) (decide (b7.val ≠ 0)) (decide (b8.val ≠ 0))
      (decide (b9.val ≠ 0)) (decide (b10.val ≠ 0))
    have hm : parseDecimal f ∈ (fieldsOf (relayMessage b0.val
      (int_or w (int_shl w (b1.val : Int) 8) (b2.val : Int))
      (int_or w (int_shl w (b3.val : Int) 8) (b4.val : Int))
      b5.val (decide (b6.val ≠ 0)) (decide (b7.val ≠ 0)) (decide (b8.val ≠ 0))
      (decide (b9.val ≠ 0)) (decide (b10.val ≠ 0)))).map parseDecimal :=
      List.mem_map_of_mem _ hf
    rw [hp] at hm
    simp only [List.mem_cons, List.mem_singleton, List.not_mem_nil, or_false] at hm
    rcases hm with hm | hm | hm | hm | hm | hm | hm | hm | hm <;> exact ⟨_, hm⟩

/-- Witness for C12: the frame of the specification. -/
theorem relay_packet_format_witness :
    ∃ msg, (readSensorData 16 (deliver specFrame) 8 idle).2.radio =
        idle.radio ++ [RadioEvent.beginPacket, RadioEvent.print msg, RadioEvent.endPacket] ∧
      (fieldsOf msg).length = 9 ∧
      (∀ f ∈ fieldsOf msg, ∃ v : Int, parseDecimal f = some v) ∧
      msg.data.count ',' = 8 ∧
      (∀ c ∈ msg.data, c = ',' ∨ c.isDigit = true ∨ c = '-') :=
  relay_packet_format 16 (deliver specFrame) 8 idle
    0x01 0x00 0x64 0x00 0x32 0x01 0x01 0x00 0x01 0x00 0x01 rfl

/-- Claim C13: the console report of a successful poll shows, on the line of
the byte at offset 7 ("No Sudden Impact"), "YES" iff that byte is zero and "NO"
iff it is nonzero, the negation of the field; every other flag line (offsets
0, 5, 6, 8, 9, 10) shows "YES" iff its byte is nonzero. -/
theorem report_negates_noSuddenImpact (w : Nat) (peer : Peer) (addr : Nat) (st : World)
    (b0 b1 b2 b3 b4 b5 b6 b7 b8 b9 b10 : Byte)
    (h : peer addr 11 = [b0, b1, b2, b3, b4, b5, b6, b7, b8, b9, b10]) :
    (readSensorData w peer addr st).2.serial = st.serial ++ consoleLines
      ["=== Light Sensor ===",
       "Tampered: " ++ (if b0.val ≠ 0 then "YES" else "NO"),
       "Neutral Light: " ++ StringOfInt (decodeLight w b1 b2),
       "Current Light: " ++ StringOfInt (decodeLight w b3 b4),
       "\n=== Hall Effect Sensor ===",
       "Tampered: " ++ (if b5.val ≠ 0 then "YES" else "NO"),
       "\n=== Vibration Sensor ===",
       "Orientation Steady: " ++ (if b6.val ≠ 0 then "YES" else "NO"),
       "No Sudden Impact: " ++ (if b7.val = 0 then "YES" else "NO"),
       "Stable Long-Term: " ++ (if b8.val ≠ 0 then "YES" else "NO"),
       "Tampering Detected: " ++ (if b9.val ≠ 0 then "YES" else "NO"),
       "\n=== MODULE STATUS ===",
       "Tampered (2/3 sensors): " ++ (if b10.val ≠ 0 then "YES" else "NO"),
       "---------------------------\n"] := by
  rw [readSensorData_serial_of_frame w peer addr st b0 b1 b2 b3 b4 b5 b6 b7 b8 b9 b10 h]
  simp only [yesNo_flag, yesNo_not_flag]

set_option maxRecDepth 10000 in
/-- Witness for C13: a frame whose flag bytes are all nonzero except byte 7, so
that every flag line, the one of byte 7 included, reads YES. -/
theorem report_negates_noSuddenImpact_witness :
    (readSensorData 16 (deliver [0x01, 0x00, 0x64, 0x00, 0x32, 0x01, 0x01, 0x00, 0x01, 0x01,
        0x01]) 8 idle).2.serial =
      "=== Light Sensor ===\r\nTampered: YES\r\nNeutral Light: 100\r\nCurrent Light: 50\r\n" ++
      "\n=== Hall Effect Sensor ===\r\nTampered: YES\r\n" ++
      "\n=== Vibration Sensor ===\r\nOrientation Steady: YES\r\nNo Sudden Impact: YES\r\n" ++
      "Stable Long-Term: YES\r\nTampering Detected: YES\r\n" ++
      "\n=== MODULE STATUS ===\r\nTampered (2/3 sensors): YES\r\n" ++
      "---------------------------\n\r\n" :=
  report_negates_noSuddenImpact 16
    (deliver [0x01, 0x00, 0x64, 0x00, 0x32, 0x01, 0x01, 0x00, 0x01, 0x01, 0x01]) 8 idle
    0x01 0x00 0x64 0x00 0x32 0x01 0x01 0x00 0x01 0x01 0x01 rfl

/-- Claim C15: the relay text loses no decoded information. For every tuple of
values passed to `sendViaLoRa`, splitting the one printed message on commas and
reading each part as a decimal integer gives back the nine values (booleans as
1 and 0); hence two calls that print the same message were given the same nine
values. -/
theorem relay_message_roundtrip (lt : Nat) (nl cl : Int) (ht : Nat)
    (so ns sl vt mt : Bool) (st : World) :
    (relayed ((sendViaLoRa lt nl cl ht so ns sl vt mt st).radio.drop st.radio.length)).map
        (fun msg => (fieldsOf msg).map parseDecimal) =
      [[some (lt : Int), some nl, some cl, some (ht : Int),
        some (if so then 1 else 0), some (if ns then 1 else 0), some (if sl then 1 else 0),
        some (if vt then 1 else 0), some (if mt then 1 else 0)]] ∧
    ∀ (lt2 : Nat) (nl2 cl2 : Int) (ht2 : Nat) (so2 ns2 sl2 vt2 mt2 : Bool) (st2 : World),
      relayed ((sendViaLoRa lt nl cl ht so ns sl vt mt st).radio.drop st.radio.length) =
        relayed ((sendViaLoRa lt2 nl2 cl2 ht2 so2 ns2 sl2 vt2 mt2 st2).radio.drop
          st2.radio.length) →
      lt = lt2 ∧ nl = nl2 ∧ cl = cl2 ∧ ht = ht2 ∧ so = so2 ∧ ns = ns2 ∧ sl = sl2 ∧
        vt = vt2 ∧ mt = mt2 := by
  constructor
  · rw [relayed_sendViaLoRa]
    simp only [List.map_cons, List.map_nil, relayMessage_parse]
  · intro lt2 nl2 cl2 ht2 so2 ns2 sl2 vt2 mt2 st2 hsame
    rw [relayed_sendViaLoRa, relayed_sendViaLoRa] at hsame
    have hmsg := List.head_eq_of_cons_eq hsame
    have hp := congrArg (fun m => (fieldsOf m).map parseDecimal) hmsg
    simp only [relayMessage_parse, List.cons.injEq, Option.some.injEq, and_true] at hp
    obtain ⟨h1, h2, h3, h4, h5, h6, h7, h8, h9⟩ := hp
    exact ⟨by exact_mod_cast h1, h2, h3, by exact_mod_cast h4, boolInt_inj _ _ h5,
      boolInt_inj _ _ h6, boolInt_inj _ _ h7, boolInt_inj _ _ h8, boolInt_inj _ _ h9⟩

/-- Witness for C15: a tuple with a negative value, a value above 32767 and
flag bytes above 1. -/
theorem relay_message_roundtrip_witness :
    (relayed ((sendViaLoRa 2 (-2) 65534 255 true false true false true idle).radio.drop
        idle.radio.length)).map (fun msg => (fieldsOf msg).map parseDecimal) =
      [[some 2, some (-2), some 65534, some 255, some 1, some 0, some 1, some 0, some 1]] :=
  (relay_message_roundtrip 2 (-2) 65534 255 true false true false true idle).1

end AntiTamper
